import Mathlib

/-!
# DronSTM — `Core/Src/gpio.c`

A shallow embedding of `MX_GPIO_Init`, the generated GPIO bring-up routine, and
proofs of the properties its specification states.

The routine is straight-line code: six clock enables, four calls of
`HAL_GPIO_WritePin`, and thirteen calls of `HAL_GPIO_Init`, all fed from one
local `GPIO_InitStruct` that is zero-initialised and then overwritten field by
field.  The embedding keeps that shape: `MX_GPIO_Init_on` is the routine written
once over a narrow hardware interface, and it is run either on the register file
(`MX_GPIO_Init`) or on a recording interface (`MX_GPIO_Init_trace`).

What is *not* in `gpio.c`:
* the pin names of `main.h` (`CS_DISP_Pin`, `GPIO_SELECT1_GPIO_Port`, ...): they are
  the fields of `Board`, a parameter of everything below;
* the vendor HAL (`HAL_GPIO_Init`, `HAL_GPIO_WritePin`, the clock-enable macros and
  the `GPIO_*` constants): modelled from the specification's register-file
  abstraction.
-/

namespace DronSTM

/-! ## Data model -/

/-- The GPIO ports of the device family.  `gpio.c` names `GPIOA`, `GPIOB`, `GPIOC`,
`GPIOD`, `GPIOE` and `GPIOH`; the remaining ports exist on the device and are kept so
that `GPIO_SELECT1_GPIO_Port` is not restricted by the type. -/
inductive GPIO_Port where
  | GPIOA | GPIOB | GPIOC | GPIOD | GPIOE | GPIOF | GPIOG | GPIOH | GPIOI
  deriving DecidableEq, Repr

open GPIO_Port

/-- The record `GPIO_InitTypeDef` handed to `HAL_GPIO_Init`: a pin mask and four
configuration words. -/
structure GPIO_InitTypeDef where
  Pin : Nat
  Mode : Nat
  Pull : Nat
  Speed : Nat
  Alternate : Nat
  deriving DecidableEq, Repr

/-- Modelled from the spec: the header constant `GPIO_PIN_n` (bit flag of pin `n`),
absent from the source tree. -/
def GPIO_PIN (n : Nat) : Nat := 1 <<< n

/-- Modelled from the spec: `GPIO_PIN_2`. -/
def GPIO_PIN_2 : Nat := GPIO_PIN 2
/-- Modelled from the spec: `GPIO_PIN_3`. -/
def GPIO_PIN_3 : Nat := GPIO_PIN 3
/-- Modelled from the spec: `GPIO_PIN_4`. -/
def GPIO_PIN_4 : Nat := GPIO_PIN 4
/-- Modelled from the spec: `GPIO_PIN_8`. -/
def GPIO_PIN_8 : Nat := GPIO_PIN 8
/-- Modelled from the spec: `GPIO_PIN_10`. -/
def GPIO_PIN_10 : Nat := GPIO_PIN 10
/-- Modelled from the spec: `GPIO_PIN_11`. -/
def GPIO_PIN_11 : Nat := GPIO_PIN 11
/-- Modelled from the spec: `GPIO_PIN_12`. -/
def GPIO_PIN_12 : Nat := GPIO_PIN 12
/-- Modelled from the spec: `GPIO_PIN_13`. -/
def GPIO_PIN_13 : Nat := GPIO_PIN 13

/-- Modelled from the spec: pin mode "input" (`GPIO_MODE_INPUT`, vendor header value). -/
def GPIO_MODE_INPUT : Nat := 0x00000000
/-- Modelled from the spec: pin mode "output-push-pull" (`GPIO_MODE_OUTPUT_PP`). -/
def GPIO_MODE_OUTPUT_PP : Nat := 0x00000001
/-- Modelled from the spec: pin mode "alternate-function" push-pull (`GPIO_MODE_AF_PP`). -/
def GPIO_MODE_AF_PP : Nat := 0x00000002
/-- Modelled from the spec: pin mode "interrupt-on-rising-edge" (`GPIO_MODE_IT_RISING`). -/
def GPIO_MODE_IT_RISING : Nat := 0x00110000
/-- Modelled from the spec: pull resistor setting "none" (`GPIO_NOPULL`). -/
def GPIO_NOPULL : Nat := 0x00000000
/-- Modelled from the spec: the low output speed class (`GPIO_SPEED_FREQ_LOW`). -/
def GPIO_SPEED_FREQ_LOW : Nat := 0x00000000
/-- Modelled from the spec: alternate-function selector 9, touch sensing (`GPIO_AF9_TSC`). -/
def GPIO_AF9_TSC : Nat := 0x09
/-- Modelled from the spec: alternate-function selector 3, audio interface (`GPIO_AF3_SAI1`). -/
def GPIO_AF3_SAI1 : Nat := 0x03
/-- Modelled from the spec: logic-low output level (`GPIO_PIN_RESET`). -/
def GPIO_PIN_RESET : Nat := 0
/-- Modelled from the spec: logic-high output level (`GPIO_PIN_SET`). -/
def GPIO_PIN_SET : Nat := 1

/-- The pin names that `gpio.c` takes from `main.h`.  The header is not part of the source
tree, so the names are parameters: each `*_Pin` is a pin mask, and
`GPIO_SELECT1_GPIO_Port` is a port. -/
structure Board where
  CS_DISP_Pin : Nat
  GPIO_SELECT2_Pin : Nat
  D_C_DISP_Pin : Nat
  RST_DISP_Pin : Nat
  SOLENOID_Pin : Nat
  GPIO_SELECT1_Pin : Nat
  GPIO_SELECT1_GPIO_Port : GPIO_Port
  TSC_G4_IO1_Pin : Nat
  TSC_G4_IO2_Pin : Nat
  DRDY_Pin : Nat
  SAI1_CK2_Pin : Nat
  SAI1_D2_Pin : Nat
  INT1_Pin : Nat
  INT2_Pin : Nat
  TSC_G6_IO1_Pin : Nat
  TSC_G6_IO2_Pin : Nat

/-- The narrow write interface through which the routine reaches the hardware: a clock
enable, a level write and a configuration call, over any state `σ`. -/
structure GpioHw (σ : Type) where
  clkEnable : GPIO_Port → σ → σ
  writePin : GPIO_Port → Nat → Nat → σ → σ
  init : GPIO_Port → GPIO_InitTypeDef → σ → σ

/-! ## The routine -/

/-- The body of `MX_GPIO_Init` (gpio.c, lines 48-161), statement by statement, over a
hardware interface `hw`.  `GPIO_InitStruct` is zero-initialised once and every later
assignment overwrites a single field. -/
def MX_GPIO_Init_on {σ : Type} (hw : GpioHw σ) (b : Board) (s : σ) : σ := Id.run do
  let mut GPIO_InitStruct : GPIO_InitTypeDef := ⟨0, 0, 0, 0, 0⟩
  let mut s := s
  -- GPIO Ports Clock Enable
  s := hw.clkEnable GPIOA s
  s := hw.clkEnable GPIOC s
  s := hw.clkEnable GPIOB s
  s := hw.clkEnable GPIOD s
  s := hw.clkEnable GPIOE s
  s := hw.clkEnable GPIOH s
  -- Configure GPIO pin Output Level
  s := hw.writePin GPIOH (b.CS_DISP_Pin ||| b.GPIO_SELECT2_Pin) GPIO_PIN_RESET s
  s := hw.writePin GPIOC (b.D_C_DISP_Pin ||| b.RST_DISP_Pin) GPIO_PIN_RESET s
  s := hw.writePin GPIOD (GPIO_PIN_8 ||| b.SOLENOID_Pin) GPIO_PIN_RESET s
  s := hw.writePin b.GPIO_SELECT1_GPIO_Port b.GPIO_SELECT1_Pin GPIO_PIN_RESET s
  -- Configure GPIO pins : PC2 PC10 PC11
  GPIO_InitStruct := { GPIO_InitStruct with Pin := GPIO_PIN_2 ||| GPIO_PIN_10 ||| GPIO_PIN_11 }
  GPIO_InitStruct := { GPIO_InitStruct with Mode := GPIO_MODE_INPUT }
  GPIO_InitStruct := { GPIO_InitStruct with Pull := GPIO_NOPULL }
  s := hw.init GPIOC GPIO_InitStruct s
  -- Configure GPIO pins : TSC_G4_IO1_Pin TSC_G4_IO2_Pin
  GPIO_InitStruct := { GPIO_InitStruct with Pin := b.TSC_G4_IO1_Pin ||| b.TSC_G4_IO2_Pin }
  GPIO_InitStruct := { GPIO_InitStruct with Mode := GPIO_MODE_AF_PP }
  GPIO_InitStruct := { GPIO_InitStruct with Pull := GPIO_NOPULL }
  GPIO_InitStruct := { GPIO_InitStruct with Speed := GPIO_SPEED_FREQ_LOW }
  GPIO_InitStruct := { GPIO_InitStruct with Alternate := GPIO_AF9_TSC }
  s := hw.init GPIOC GPIO_InitStruct s
  -- Configure GPIO pins : PE4 DRDY_Pin
  GPIO_InitStruct := { GPIO_InitStruct with Pin := GPIO_PIN_4 ||| b.DRDY_Pin }
  GPIO_InitStruct := { GPIO_InitStruct with Mode := GPIO_MODE_INPUT }
  GPIO_InitStruct := { GPIO_InitStruct with Pull := GPIO_NOPULL }
  s := hw.init GPIOE GPIO_InitStruct s
  -- Configure GPIO pin : PB2
  GPIO_InitStruct := { GPIO_InitStruct with Pin := GPIO_PIN_2 }
  GPIO_InitStruct := { GPIO_InitStruct with Mode := GPIO_MODE_INPUT }
  GPIO_InitStruct := { GPIO_InitStruct with Pull := GPIO_NOPULL }
  s := hw.init GPIOB GPIO_InitStruct s
  -- Configure GPIO pins : SAI1_CK2_Pin SAI1_D2_Pin
  GPIO_InitStruct := { GPIO_InitStruct with Pin := b.SAI1_CK2_Pin ||| b.SAI1_D2_Pin }
  GPIO_InitStruct := { GPIO_InitStruct with Mode := GPIO_MODE_AF_PP }
  GPIO_InitStruct := { GPIO_InitStruct with Pull := GPIO_NOPULL }
  GPIO_InitStruct := { GPIO_InitStruct with Speed := GPIO_SPEED_FREQ_LOW }
  GPIO_InitStruct := { GPIO_InitStruct with Alternate := GPIO_AF3_SAI1 }
  s := hw.init GPIOA GPIO_InitStruct s
  -- Configure GPIO pins : CS_DISP_Pin GPIO_SELECT2_Pin
  GPIO_InitStruct := { GPIO_InitStruct with Pin := b.CS_DISP_Pin ||| b.GPIO_SELECT2_Pin }
  GPIO_InitStruct := { GPIO_InitStruct with Mode := GPIO_MODE_OUTPUT_PP }
  GPIO_InitStruct := { GPIO_InitStruct with Pull := GPIO_NOPULL }
  GPIO_InitStruct := { GPIO_InitStruct with Speed := GPIO_SPEED_FREQ_LOW }
  s := hw.init GPIOH GPIO_InitStruct s
  -- Configure GPIO pins : PD13 PD12 PD4
  GPIO_InitStruct := { GPIO_InitStruct with Pin := GPIO_PIN_13 ||| GPIO_PIN_12 ||| GPIO_PIN_4 }
  GPIO_InitStruct := { GPIO_InitStruct with Mode := GPIO_MODE_INPUT }
  GPIO_InitStruct := { GPIO_InitStruct with Pull := GPIO_NOPULL }
  s := hw.init GPIOD GPIO_InitStruct s
  -- Configure GPIO pins : INT1_Pin INT2_Pin
  GPIO_InitStruct := { GPIO_InitStruct with Pin := b.INT1_Pin ||| b.INT2_Pin }
  GPIO_InitStruct := { GPIO_InitStruct with Mode := GPIO_MODE_IT_RISING }
  GPIO_InitStruct := { GPIO_InitStruct with Pull := GPIO_NOPULL }
  s := hw.init GPIOD GPIO_InitStruct s
  -- Configure GPIO pins : D_C_DISP_Pin RST_DISP_Pin
  GPIO_InitStruct := { GPIO_InitStruct with Pin := b.D_C_DISP_Pin ||| b.RST_DISP_Pin }
  GPIO_InitStruct := { GPIO_InitStruct with Mode := GPIO_MODE_OUTPUT_PP }
  GPIO_InitStruct := { GPIO_InitStruct with Pull := GPIO_NOPULL }
  GPIO_InitStruct := { GPIO_InitStruct with Speed := GPIO_SPEED_FREQ_LOW }
  s := hw.init GPIOC GPIO_InitStruct s
  -- Configure GPIO pin : PE3
  GPIO_InitStruct := { GPIO_InitStruct with Pin := GPIO_PIN_3 }
  GPIO_InitStruct := { GPIO_InitStruct with Mode := GPIO_MODE_IT_RISING }
  GPIO_InitStruct := { GPIO_InitStruct with Pull := GPIO_NOPULL }
  s := hw.init GPIOE GPIO_InitStruct s
  -- Configure GPIO pins : PD8 SOLENOID_Pin
  GPIO_InitStruct := { GPIO_InitStruct with Pin := GPIO_PIN_8 ||| b.SOLENOID_Pin }
  GPIO_InitStruct := { GPIO_InitStruct with Mode := GPIO_MODE_OUTPUT_PP }
  GPIO_InitStruct := { GPIO_InitStruct with Pull := GPIO_NOPULL }
  GPIO_InitStruct := { GPIO_InitStruct with Speed := GPIO_SPEED_FREQ_LOW }
  s := hw.init GPIOD GPIO_InitStruct s
  -- Configure GPIO pins : TSC_G6_IO1_Pin TSC_G6_IO2_Pin
  GPIO_InitStruct := { GPIO_InitStruct with Pin := b.TSC_G6_IO1_Pin ||| b.TSC_G6_IO2_Pin }
  GPIO_InitStruct := { GPIO_InitStruct with Mode := GPIO_MODE_AF_PP }
  GPIO_InitStruct := { GPIO_InitStruct with Pull := GPIO_NOPULL }
  GPIO_InitStruct := { GPIO_InitStruct with Speed := GPIO_SPEED_FREQ_LOW }
  GPIO_InitStruct := { GPIO_InitStruct with Alternate := GPIO_AF9_TSC }
  s := hw.init GPIOD GPIO_InitStruct s
  -- Configure GPIO pin : GPIO_SELECT1_Pin
  GPIO_InitStruct := { GPIO_InitStruct with Pin := b.GPIO_SELECT1_Pin }
  GPIO_InitStruct := { GPIO_InitStruct with Mode := GPIO_MODE_OUTPUT_PP }
  GPIO_InitStruct := { GPIO_InitStruct with Pull := GPIO_NOPULL }
  GPIO_InitStruct := { GPIO_InitStruct with Speed := GPIO_SPEED_FREQ_LOW }
  s := hw.init b.GPIO_SELECT1_GPIO_Port GPIO_InitStruct s
  return s

/-! ## The register file -/

/-- The configuration state of one pin: mode, pull, speed and alternate-function words, and
the output-level latch. -/
structure PinState where
  mode : Nat
  pull : Nat
  speed : Nat
  alternate : Nat
  level : Nat
  deriving DecidableEq, Repr

/-- The register file: one clock gate per port and a mapping from port and pin to
configuration state. -/
@[ext]
structure Regs where
  clock : GPIO_Port → Bool
  pin : GPIO_Port → Nat → PinState

/-- Modelled from the spec: the clock-enable macros `__HAL_RCC_GPIOx_CLK_ENABLE()` of the
vendor HAL, absent from the source tree.  The gate of port `GPIOx` is switched on; enabling
an enabled clock changes nothing, and nothing else is touched. -/
def HAL_RCC_GPIO_CLK_ENABLE (GPIOx : GPIO_Port) (s : Regs) : Regs :=
  { s with clock := fun q => if q = GPIOx then true else s.clock q }

/-- Modelled from the spec: `HAL_GPIO_WritePin` of the vendor HAL, absent from the source
tree.  A direct register write that forces the output level of every pin of the mask
`GPIO_Pin` on port `GPIOx`: low for `GPIO_PIN_RESET`, high otherwise. -/
def HAL_GPIO_WritePin (GPIOx : GPIO_Port) (GPIO_Pin : Nat) (PinState : Nat) (s : Regs) : Regs :=
  { s with pin := fun q i =>
      if q = GPIOx ∧ GPIO_Pin.testBit i = true then
        { s.pin q i with level := if PinState = GPIO_PIN_RESET then 0 else 1 }
      else s.pin q i }

/-- Modelled from the spec: `HAL_GPIO_Init` of the vendor HAL, absent from the source tree.
The configuration record (mode, pull, speed, alternate function) is applied to every pin of
the record's mask on the owning port; the call acts only on its own port's pins. -/
def HAL_GPIO_Init (GPIOx : GPIO_Port) (GPIO_Init : GPIO_InitTypeDef) (s : Regs) : Regs :=
  { s with pin := fun q i =>
      if q = GPIOx ∧ GPIO_Init.Pin.testBit i = true then
        { s.pin q i with
          mode := GPIO_Init.Mode, pull := GPIO_Init.Pull,
          speed := GPIO_Init.Speed, alternate := GPIO_Init.Alternate }
      else s.pin q i }

/-- The hardware interface on the register file. -/
def regsHw : GpioHw Regs where
  clkEnable := HAL_RCC_GPIO_CLK_ENABLE
  writePin := HAL_GPIO_WritePin
  init := HAL_GPIO_Init

/-- The routine `MX_GPIO_Init` on the register file. -/
def MX_GPIO_Init (b : Board) (s : Regs) : Regs := MX_GPIO_Init_on regsHw b s

/-! ## The recording interface -/

/-- One register operation of the routine, as a mock interface records it. -/
inductive Op where
  | clk (port : GPIO_Port)
  | write (port : GPIO_Port) (pins : Nat) (level : Nat)
  | init (port : GPIO_Port) (cfg : GPIO_InitTypeDef)
  deriving DecidableEq, Repr

/-- The mock interface of the specification: every operation is appended to a log, so the
log lists the operations in the order the routine performs them. -/
def mockHw : GpioHw (List Op) where
  clkEnable := fun p log => log ++ [Op.clk p]
  writePin := fun p pins level log => log ++ [Op.write p pins level]
  init := fun p cfg log => log ++ [Op.init p cfg]

/-- The sequence of register operations performed by `MX_GPIO_Init`. -/
def MX_GPIO_Init_trace (b : Board) : List Op := MX_GPIO_Init_on mockHw b []

/-- The effect of one recorded operation through a hardware interface. -/
def interp {σ : Type} (hw : GpioHw σ) : Op → σ → σ
  | Op.clk p => hw.clkEnable p
  | Op.write p pins level => hw.writePin p pins level
  | Op.init p cfg => hw.init p cfg

/-- Running a list of recorded operations, first to last, through an interface. -/
def replayOn {σ : Type} (hw : GpioHw σ) (l : List Op) (s : σ) : σ :=
  l.foldl (fun s o => interp hw o s) s

/-- Running a list of recorded operations on the register file. -/
def replay (l : List Op) (s : Regs) : Regs := replayOn regsHw l s

/-- The port an operation addresses. -/
def Op.port : Op → GPIO_Port
  | Op.clk p => p
  | Op.write p _ _ => p
  | Op.init p _ => p

/-- Whether the operation is a configuration call. -/
def Op.isInit : Op → Bool
  | Op.init _ _ => true
  | _ => false

/-- The configuration calls of the routine, in program order. -/
def configCalls (b : Board) : List Op := (MX_GPIO_Init_trace b).filter Op.isInit

/-- The clock enables and level writes of the routine, in program order. -/
def clockAndLevelOps (b : Board) : List Op := (MX_GPIO_Init_trace b).filter (fun o => !o.isInit)


/-! ## Summary of a list of operations -/

/-- The configuration record that operation `o` applies to pin `i` of port `p`, if any. -/
def Op.cfgAt (o : Op) (p : GPIO_Port) (i : Nat) : Option GPIO_InitTypeDef :=
  match o with
  | Op.init q c => if p = q ∧ c.Pin.testBit i = true then some c else none
  | _ => none

/-- The latch value that operation `o` writes to pin `i` of port `p`, if any. -/
def Op.lvlAt (o : Op) (p : GPIO_Port) (i : Nat) : Option Nat :=
  match o with
  | Op.write q m l =>
      if p = q ∧ m.testBit i = true then some (if l = GPIO_PIN_RESET then 0 else 1) else none
  | _ => none

/-- Whether operation `o` enables the clock of port `p`. -/
def Op.clkAt (o : Op) (p : GPIO_Port) : Bool :=
  match o with
  | Op.clk q => decide (p = q)
  | _ => false

/-- Whether operation `o` writes or configures pin `i` of port `p`. -/
def Op.touches (o : Op) (p : GPIO_Port) (i : Nat) : Bool :=
  match o with
  | Op.clk _ => false
  | Op.write q m _ => decide (p = q) && m.testBit i
  | Op.init q c => decide (p = q) && c.Pin.testBit i

/-- The record of the last configuration call in `l` that covers pin `i` of port `p`. -/
def lastCfg : List Op → GPIO_Port → Nat → Option GPIO_InitTypeDef
  | [], _, _ => none
  | o :: l, p, i =>
      match lastCfg l p i with
      | some c => some c
      | none => o.cfgAt p i

/-- The latch value of the last level write in `l` that covers pin `i` of port `p`. -/
def lastLvl : List Op → GPIO_Port → Nat → Option Nat
  | [], _, _ => none
  | o :: l, p, i =>
      match lastLvl l p i with
      | some v => some v
      | none => o.lvlAt p i

/-- Whether `l` holds a clock enable of port `p`. -/
def clkOn (l : List Op) (p : GPIO_Port) : Bool := l.any (fun o => o.clkAt p)

/-- Overwrite the four configuration words of a pin with those of a record, if there is one. -/
def PinState.setCfg (c : Option GPIO_InitTypeDef) (x : PinState) : PinState :=
  match c with
  | none => x
  | some c => { x with mode := c.Mode, pull := c.Pull, speed := c.Speed, alternate := c.Alternate }

/-- Overwrite the output latch of a pin, if there is a value. -/
def PinState.setLvl (v : Option Nat) (x : PinState) : PinState :=
  match v with
  | none => x
  | some v => { x with level := v }

/-- Two operations clash when both are configuration calls on one port whose masks share a
pin. -/
def Op.clash : Op → Op → Bool
  | Op.init p c, Op.init q d => decide (p = q) && decide (c.Pin &&& d.Pin ≠ 0)
  | _, _ => false

/-- Modelled from the spec: the pin names of `main.h` are absent from the source tree; the
spec's pin-to-mode-to-function mapping gives every pin one group.  The pin assignment gives
no pin to two groups: no two configuration calls of the routine address the same pin of the
same port. -/
def PinsDistinct (b : Board) : Prop :=
  (configCalls b).Pairwise (fun x y => Op.clash x y = false)

instance (b : Board) : Decidable (PinsDistinct b) :=
  inferInstanceAs (Decidable ((configCalls b).Pairwise (fun x y => Op.clash x y = false)))

/-- The six ports whose clock the routine enables. -/
def clockedPorts : List GPIO_Port := [GPIOA, GPIOB, GPIOC, GPIOD, GPIOE, GPIOH]

/-- A pin assignment on which the theorems are exercised.  The six alternate-function pins
are those of the comment above `MX_GPIO_Init` (PC6, PC7, PA8, PA9, PD10, PD11); the other
names are defined only in `main.h` and are given pins that no other group uses. -/
def sampleBoard : Board where
  CS_DISP_Pin := GPIO_PIN 0
  GPIO_SELECT2_Pin := GPIO_PIN 1
  D_C_DISP_Pin := GPIO_PIN 8
  RST_DISP_Pin := GPIO_PIN 9
  SOLENOID_Pin := GPIO_PIN 9
  GPIO_SELECT1_Pin := GPIO_PIN 12
  GPIO_SELECT1_GPIO_Port := GPIOB
  TSC_G4_IO1_Pin := GPIO_PIN 6
  TSC_G4_IO2_Pin := GPIO_PIN 7
  DRDY_Pin := GPIO_PIN 2
  SAI1_CK2_Pin := GPIO_PIN 8
  SAI1_D2_Pin := GPIO_PIN 9
  INT1_Pin := GPIO_PIN 0
  INT2_Pin := GPIO_PIN 1
  TSC_G6_IO1_Pin := GPIO_PIN 10
  TSC_G6_IO2_Pin := GPIO_PIN 11

/-- A register file before bring-up: every clock gate off, every pin with mode word 3 and
all other words zero. -/
def resetRegs : Regs where
  clock := fun _ => false
  pin := fun _ _ => ⟨3, 0, 0, 0, 0⟩

/-- A plain input with no pull. -/
def PinState.isPlainInput (x : PinState) : Prop :=
  x.mode = GPIO_MODE_INPUT ∧ x.pull = GPIO_NOPULL

/-- Alternate-function push-pull, no pull, low speed, alternate function `af`. -/
def PinState.isAltFn (af : Nat) (x : PinState) : Prop :=
  x.mode = GPIO_MODE_AF_PP ∧ x.pull = GPIO_NOPULL ∧ x.speed = GPIO_SPEED_FREQ_LOW ∧
    x.alternate = af

/-- A push-pull output, no pull, low speed. -/
def PinState.isOutputPP (x : PinState) : Prop :=
  x.mode = GPIO_MODE_OUTPUT_PP ∧ x.pull = GPIO_NOPULL ∧ x.speed = GPIO_SPEED_FREQ_LOW

/-- A rising-edge interrupt input with no pull. -/
def PinState.isRisingIrq (x : PinState) : Prop :=
  x.mode = GPIO_MODE_IT_RISING ∧ x.pull = GPIO_NOPULL

/-- The record of a configuration call. -/
def Op.cfg? : Op → Option GPIO_InitTypeDef
  | Op.init _ c => some c
  | _ => none

/-- The records handed to the configuration calls of the routine, in program order. -/
def callRecords (b : Board) : List GPIO_InitTypeDef := (MX_GPIO_Init_trace b).filterMap Op.cfg?

/-- The alternate-function selector of the most recent alternate-function group in a list
of records, zero when there is none. -/
def staleAlternate (l : List GPIO_InitTypeDef) : Nat :=
  l.foldl (fun acc c => if c.Mode = GPIO_MODE_AF_PP then c.Alternate else acc) 0

/-- The port and pin mask of a level write. -/
def Op.writeTarget? : Op → Option (GPIO_Port × Nat)
  | Op.write p m _ => some (p, m)
  | _ => none

/-- The port and pin mask of a configuration call that selects push-pull output mode. -/
def Op.outputTarget? : Op → Option (GPIO_Port × Nat)
  | Op.init p c => if c.Mode = GPIO_MODE_OUTPUT_PP then some (p, c.Pin) else none
  | _ => none

/-! ## The one-pin-at-a-time variant -/

/-- Follows the spec's words ("applying pins one at a time"): the configuration call on a
group replaced by one configuration call per pin of the list `pins`, each with the group's
mode, pull, speed and alternate function and the single-pin mask `GPIO_PIN i`. -/
def HAL_GPIO_Init_perPin (pins : List Nat) (GPIOx : GPIO_Port) (GPIO_Init : GPIO_InitTypeDef)
    (s : Regs) : Regs :=
  pins.foldl (fun s i => HAL_GPIO_Init GPIOx { GPIO_Init with Pin := GPIO_PIN i } s) s

/-- The register-file interface whose configuration call works one pin at a time, in the
order `order` gives for the call. -/
def perPinHw (order : GPIO_Port → GPIO_InitTypeDef → List Nat) : GpioHw Regs where
  clkEnable := HAL_RCC_GPIO_CLK_ENABLE
  writePin := HAL_GPIO_WritePin
  init := fun p c => HAL_GPIO_Init_perPin (order p c) p c

/-- Follows the spec's words: the one-pin-at-a-time variant of the whole routine. -/
def MX_GPIO_Init_perPin (order : GPIO_Port → GPIO_InitTypeDef → List Nat) (b : Board)
    (s : Regs) : Regs :=
  MX_GPIO_Init_on (perPinHw order) b s

/-- The pins of a mask, highest first. -/
def pinsOfMask (m : Nat) : List Nat :=
  ((List.range (m + 1)).filter (fun i => m.testBit i)).reverse

/-- A reordering of the configuration calls: the groups of port D first, then the others,
each part in program order. -/
def portDFirst (b : Board) : List Op :=
  (configCalls b).filter (fun o => decide (o.port = GPIOD)) ++
    (configCalls b).filter (fun o => !decide (o.port = GPIOD))

/-! ## The trace of the routine -/

/-- The operations of the routine, written out. -/
theorem trace_eq (b : Board) : MX_GPIO_Init_trace b =
  [ Op.clk GPIOA, Op.clk GPIOC, Op.clk GPIOB, Op.clk GPIOD, Op.clk GPIOE, Op.clk GPIOH,
    Op.write GPIOH (b.CS_DISP_Pin ||| b.GPIO_SELECT2_Pin) GPIO_PIN_RESET,
    Op.write GPIOC (b.D_C_DISP_Pin ||| b.RST_DISP_Pin) GPIO_PIN_RESET,
    Op.write GPIOD (GPIO_PIN_8 ||| b.SOLENOID_Pin) GPIO_PIN_RESET,
    Op.write b.GPIO_SELECT1_GPIO_Port b.GPIO_SELECT1_Pin GPIO_PIN_RESET,
    Op.init GPIOC ⟨GPIO_PIN_2 ||| GPIO_PIN_10 ||| GPIO_PIN_11, GPIO_MODE_INPUT, GPIO_NOPULL,
      0, 0⟩,
    Op.init GPIOC ⟨b.TSC_G4_IO1_Pin ||| b.TSC_G4_IO2_Pin, GPIO_MODE_AF_PP, GPIO_NOPULL,
      GPIO_SPEED_FREQ_LOW, GPIO_AF9_TSC⟩,
    Op.init GPIOE ⟨GPIO_PIN_4 ||| b.DRDY_Pin, GPIO_MODE_INPUT, GPIO_NOPULL,
      GPIO_SPEED_FREQ_LOW, GPIO_AF9_TSC⟩,
    Op.init GPIOB ⟨GPIO_PIN_2, GPIO_MODE_INPUT, GPIO_NOPULL, GPIO_SPEED_FREQ_LOW, GPIO_AF9_TSC⟩,
    Op.init GPIOA ⟨b.SAI1_CK2_Pin ||| b.SAI1_D2_Pin, GPIO_MODE_AF_PP, GPIO_NOPULL,
      GPIO_SPEED_FREQ_LOW, GPIO_AF3_SAI1⟩,
    Op.init GPIOH ⟨b.CS_DISP_Pin ||| b.GPIO_SELECT2_Pin, GPIO_MODE_OUTPUT_PP, GPIO_NOPULL,
      GPIO_SPEED_FREQ_LOW, GPIO_AF3_SAI1⟩,
    Op.init GPIOD ⟨GPIO_PIN_13 ||| GPIO_PIN_12 ||| GPIO_PIN_4, GPIO_MODE_INPUT, GPIO_NOPULL,
      GPIO_SPEED_FREQ_LOW, GPIO_AF3_SAI1⟩,
    Op.init GPIOD ⟨b.INT1_Pin ||| b.INT2_Pin, GPIO_MODE_IT_RISING, GPIO_NOPULL,
      GPIO_SPEED_FREQ_LOW, GPIO_AF3_SAI1⟩,
    Op.init GPIOC ⟨b.D_C_DISP_Pin ||| b.RST_DISP_Pin, GPIO_MODE_OUTPUT_PP, GPIO_NOPULL,
      GPIO_SPEED_FREQ_LOW, GPIO_AF3_SAI1⟩,
    Op.init GPIOE ⟨GPIO_PIN_3, GPIO_MODE_IT_RISING, GPIO_NOPULL, GPIO_SPEED_FREQ_LOW,
      GPIO_AF3_SAI1⟩,
    Op.init GPIOD ⟨GPIO_PIN_8 ||| b.SOLENOID_Pin, GPIO_MODE_OUTPUT_PP, GPIO_NOPULL,
      GPIO_SPEED_FREQ_LOW, GPIO_AF3_SAI1⟩,
    Op.init GPIOD ⟨b.TSC_G6_IO1_Pin ||| b.TSC_G6_IO2_Pin, GPIO_MODE_AF_PP, GPIO_NOPULL,
      GPIO_SPEED_FREQ_LOW, GPIO_AF9_TSC⟩,
    Op.init b.GPIO_SELECT1_GPIO_Port ⟨b.GPIO_SELECT1_Pin, GPIO_MODE_OUTPUT_PP, GPIO_NOPULL,
      GPIO_SPEED_FREQ_LOW, GPIO_AF9_TSC⟩ ] := by
  simp only [MX_GPIO_Init_trace, MX_GPIO_Init_on, mockHw, Id.run, bind, pure,
    List.nil_append, List.cons_append, List.append_assoc]

/-- The routine over any interface is the replay of its trace through that interface. -/
theorem on_eq_replayOn {σ : Type} (hw : GpioHw σ) (b : Board) (s : σ) :
    MX_GPIO_Init_on hw b s = replayOn hw (MX_GPIO_Init_trace b) s := by
  rw [trace_eq]
  simp only [MX_GPIO_Init_on, Id.run, bind, pure, replayOn, List.foldl_cons, List.foldl_nil,
    interp]

/-- The routine on the register file is the replay of its trace. -/
theorem MX_GPIO_Init_eq_replay (b : Board) (s : Regs) :
    MX_GPIO_Init b s = replay (MX_GPIO_Init_trace b) s :=
  on_eq_replayOn regsHw b s

/-! ## Effect of a list of operations on the register file -/

theorem interp_pin (o : Op) (s : Regs) (p : GPIO_Port) (i : Nat) :
    (interp regsHw o s).pin p i
      = PinState.setLvl (o.lvlAt p i) (PinState.setCfg (o.cfgAt p i) (s.pin p i)) := by
  cases o <;>
    simp only [interp, regsHw, HAL_RCC_GPIO_CLK_ENABLE, HAL_GPIO_WritePin, HAL_GPIO_Init,
      Op.cfgAt, Op.lvlAt, PinState.setCfg, PinState.setLvl] <;>
    split_ifs <;> rfl

theorem interp_clock (o : Op) (s : Regs) (p : GPIO_Port) :
    (interp regsHw o s).clock p = (o.clkAt p || s.clock p) := by
  cases o <;>
    simp only [interp, regsHw, HAL_RCC_GPIO_CLK_ENABLE, HAL_GPIO_WritePin, HAL_GPIO_Init,
      Op.clkAt, Bool.false_or]
  split_ifs with h <;> simp [h]

theorem replay_nil (s : Regs) : replay [] s = s := rfl

theorem replay_cons (o : Op) (l : List Op) (s : Regs) :
    replay (o :: l) s = replay l (interp regsHw o s) := rfl

theorem replay_append (l₁ l₂ : List Op) (s : Regs) :
    replay (l₁ ++ l₂) s = replay l₂ (replay l₁ s) := by
  simp [replay, replayOn, List.foldl_append]

theorem setLvl_setCfg_merge (a a' : Option Nat) (c c' : Option GPIO_InitTypeDef) (x : PinState) :
    PinState.setLvl a (PinState.setCfg c (PinState.setLvl a' (PinState.setCfg c' x)))
      = PinState.setLvl (match a with | some v => some v | none => a')
          (PinState.setCfg (match c with | some r => some r | none => c') x) := by
  cases a <;> cases a' <;> cases c <;> cases c' <;> rfl

/-- The state of a pin after a list of operations: the last covering configuration record
and the last covering level write, over the starting state. -/
theorem replay_pin (l : List Op) (s : Regs) (p : GPIO_Port) (i : Nat) :
    (replay l s).pin p i
      = PinState.setLvl (lastLvl l p i) (PinState.setCfg (lastCfg l p i) (s.pin p i)) := by
  induction l generalizing s with
  | nil => rfl
  | cons o l ih =>
    rw [replay_cons, ih, interp_pin, setLvl_setCfg_merge]
    rfl

/-- The clock gate of a port after a list of operations. -/
theorem replay_clock (l : List Op) (s : Regs) (p : GPIO_Port) :
    (replay l s).clock p = (clkOn l p || s.clock p) := by
  induction l generalizing s with
  | nil => simp [replay_nil, clkOn]
  | cons o l ih =>
    rw [replay_cons, ih, interp_clock]
    simp only [clkOn, List.any_cons]
    cases o.clkAt p <;> cases l.any (fun o => o.clkAt p) <;> simp

theorem replay_idem (l : List Op) (s : Regs) : replay l (replay l s) = replay l s := by
  apply Regs.ext
  · funext p
    rw [replay_clock, replay_clock]
    cases clkOn l p <;> simp
  · funext p i
    rw [replay_pin, replay_pin]
    cases lastLvl l p i <;> cases lastCfg l p i <;> rfl

theorem lastCfg_none_of_untouched (l : List Op) (p : GPIO_Port) (i : Nat)
    (h : ∀ o ∈ l, o.touches p i = false) : lastCfg l p i = none := by
  induction l with
  | nil => rfl
  | cons o l ih =>
    have ho := h o (List.mem_cons_self _ _)
    rw [lastCfg, ih (fun x hx => h x (List.mem_cons_of_mem _ hx))]
    cases o <;> simp_all [Op.cfgAt, Op.touches]

theorem lastLvl_none_of_untouched (l : List Op) (p : GPIO_Port) (i : Nat)
    (h : ∀ o ∈ l, o.touches p i = false) : lastLvl l p i = none := by
  induction l with
  | nil => rfl
  | cons o l ih =>
    have ho := h o (List.mem_cons_self _ _)
    rw [lastLvl, ih (fun x hx => h x (List.mem_cons_of_mem _ hx))]
    cases o <;> simp_all [Op.lvlAt, Op.touches]

theorem clkOn_trace (b : Board) (p : GPIO_Port) :
    clkOn (MX_GPIO_Init_trace b) p = decide (p ∈ clockedPorts) := by
  rw [trace_eq]
  cases p <;> simp [clkOn, Op.clkAt, clockedPorts]

/-! ## The claims -/

/-- C3. `MX_GPIO_Init` is idempotent on the register file: from every starting state,
running the routine twice ends in the same state (clock gates, output latches and per-pin
mode, pull, speed and alternate function) as running it once. -/
theorem MX_GPIO_Init_idempotent (b : Board) (s : Regs) :
    MX_GPIO_Init b (MX_GPIO_Init b s) = MX_GPIO_Init b s := by
  simp only [MX_GPIO_Init_eq_replay]
  exact replay_idem _ _

/-- C4. From every starting state and for every pin assignment, after `MX_GPIO_Init` the
clock of each of the six ports A, B, C, D, E, H is enabled; more precisely the clock of any
port `p` is on afterwards exactly when `p` is one of the six or its clock was on before, so
no clock is switched off and the enables do not depend on the pins written or configured. -/
theorem MX_GPIO_Init_clocks (b : Board) (s : Regs) :
    (MX_GPIO_Init b s).clock GPIOA = true ∧ (MX_GPIO_Init b s).clock GPIOB = true ∧
    (MX_GPIO_Init b s).clock GPIOC = true ∧ (MX_GPIO_Init b s).clock GPIOD = true ∧
    (MX_GPIO_Init b s).clock GPIOE = true ∧ (MX_GPIO_Init b s).clock GPIOH = true ∧
    ∀ p, (MX_GPIO_Init b s).clock p = (decide (p ∈ clockedPorts) || s.clock p) := by
  have h : ∀ p, (MX_GPIO_Init b s).clock p = (decide (p ∈ clockedPorts) || s.clock p) := by
    intro p
    rw [MX_GPIO_Init_eq_replay, replay_clock, clkOn_trace]
  refine ⟨?_, ?_, ?_, ?_, ?_, ?_, h⟩ <;> rw [h] <;> simp [clockedPorts]

/-- C5. `MX_GPIO_Init` changes nothing outside its pin groups: a pin of a port that no level
write and no configuration call of the routine covers on that port has, after the routine,
the mode, pull, speed, alternate function and output level it had before. -/
theorem MX_GPIO_Init_frame (b : Board) (s : Regs) (p : GPIO_Port) (i : Nat)
    (h : ∀ o ∈ MX_GPIO_Init_trace b, o.touches p i = false) :
    (MX_GPIO_Init b s).pin p i = s.pin p i := by
  rw [MX_GPIO_Init_eq_replay, replay_pin, lastCfg_none_of_untouched _ _ _ h,
    lastLvl_none_of_untouched _ _ _ h]
  rfl

/-- Witness for C5 on the sample pin assignment: pin 0 of port C is in no group, and keeps
its reset configuration. -/
theorem MX_GPIO_Init_frame_witness :
    (∀ o ∈ MX_GPIO_Init_trace sampleBoard, o.touches GPIOC 0 = false) ∧
    (MX_GPIO_Init sampleBoard resetRegs).pin GPIOC 0 = ⟨3, 0, 0, 0, 0⟩ :=
  ⟨by rw [trace_eq]; decide,
   MX_GPIO_Init_frame sampleBoard resetRegs GPIOC 0 (by rw [trace_eq]; decide)⟩

theorem lastCfg_some (l : List Op) (p : GPIO_Port) (i : Nat) (d : GPIO_InitTypeDef)
    (h : lastCfg l p i = some d) : Op.init p d ∈ l ∧ d.Pin.testBit i = true := by
  induction l with
  | nil => simp [lastCfg] at h
  | cons o l ih =>
    rw [lastCfg] at h
    cases hl : lastCfg l p i with
    | some c =>
      rw [hl] at h
      cases h
      exact ⟨List.mem_cons_of_mem _ (ih hl).1, (ih hl).2⟩
    | none =>
      rw [hl] at h
      cases o with
      | clk q => simp [Op.cfgAt] at h
      | write q m v => simp [Op.cfgAt] at h
      | init q c =>
        simp only [Op.cfgAt] at h
        split_ifs at h with hc
        cases h
        obtain ⟨rfl, hbit⟩ := hc
        exact ⟨List.mem_cons_self _ _, hbit⟩

theorem no_common_bit (a c i : Nat) (h : a &&& c = 0) (ha : a.testBit i = true)
    (hc : c.testBit i = true) : False := by
  have := Nat.testBit_and a c i
  rw [h, ha, hc] at this
  simp at this

theorem lastCfg_of_distinct (l : List Op) (hpw : l.Pairwise (fun x y => Op.clash x y = false))
    (p : GPIO_Port) (c : GPIO_InitTypeDef) (i : Nat) (hmem : Op.init p c ∈ l)
    (hi : c.Pin.testBit i = true) : lastCfg l p i = some c := by
  induction l with
  | nil => simp at hmem
  | cons o l ih =>
    rw [List.pairwise_cons] at hpw
    rw [lastCfg]
    cases hl : lastCfg l p i with
    | some d =>
      obtain ⟨hd, hdi⟩ := lastCfg_some l p i d hl
      rcases List.mem_cons.mp hmem with h | h
      · subst h
        have hcl := hpw.1 _ hd
        simp only [Op.clash, Bool.and_eq_false_imp, decide_eq_true_eq, decide_eq_false_iff_not,
          not_not, true_implies] at hcl
        exact (no_common_bit _ _ i hcl hi hdi).elim
      · rw [ih hpw.2 h] at hl
        exact hl.symm ▸ rfl
    | none =>
      rcases List.mem_cons.mp hmem with h | h
      · subst h
        simp [Op.cfgAt, hi]
      · rw [ih hpw.2 h] at hl
        cases hl

theorem lastCfg_filter_isInit (l : List Op) (p : GPIO_Port) (i : Nat) :
    lastCfg (l.filter Op.isInit) p i = lastCfg l p i := by
  induction l with
  | nil => rfl
  | cons o l ih =>
    cases o <;> simp only [List.filter, Op.isInit, lastCfg, ih, Op.cfgAt] <;>
      cases lastCfg l p i <;> rfl

/-- Under a pin assignment without shared pins, a pin covered by a configuration call of the
routine ends with the four words of that call's record. -/
theorem final_words (b : Board) (h : PinsDistinct b) (s : Regs) (p : GPIO_Port)
    (c : GPIO_InitTypeDef) (i : Nat) (hmem : Op.init p c ∈ MX_GPIO_Init_trace b)
    (hi : c.Pin.testBit i = true) :
    ((MX_GPIO_Init b s).pin p i).mode = c.Mode ∧ ((MX_GPIO_Init b s).pin p i).pull = c.Pull ∧
    ((MX_GPIO_Init b s).pin p i).speed = c.Speed ∧
    ((MX_GPIO_Init b s).pin p i).alternate = c.Alternate := by
  have hm : Op.init p c ∈ configCalls b := by
    simp [configCalls, List.mem_filter, hmem, Op.isInit]
  have hc := lastCfg_of_distinct _ h p c i hm hi
  rw [configCalls, lastCfg_filter_isInit] at hc
  rw [MX_GPIO_Init_eq_replay, replay_pin, hc]
  cases lastLvl (MX_GPIO_Init_trace b) p i <;> exact ⟨rfl, rfl, rfl, rfl⟩

/-- C1. After `MX_GPIO_Init`, under a pin assignment that gives no pin to two groups, every
pin of every configured group has the configuration the routine assigns to that group:
PC2/PC10/PC11, PE4/DRDY, PB2 and PD13/PD12/PD4 are plain inputs with no pull;
TSC_G4_IO1/TSC_G4_IO2 (port C) and TSC_G6_IO1/TSC_G6_IO2 (port D) are alternate-function
push-pull, no pull, low speed, AF9_TSC; SAI1_CK2/SAI1_D2 (port A) are alternate-function
push-pull, no pull, low speed, AF3_SAI1; CS_DISP/GPIO_SELECT2 (port H), D_C_DISP/RST_DISP
(port C), PD8/SOLENOID (port D) and GPIO_SELECT1 (its own port) are push-pull outputs, no
pull, low speed; INT1/INT2 (port D) and PE3 are rising-edge interrupt inputs with no pull.
The starting register state is arbitrary, the reset state included. -/
theorem MX_GPIO_Init_group_configuration (b : Board) (h : PinsDistinct b) (s : Regs) :
    (∀ i, (GPIO_PIN_2 ||| GPIO_PIN_10 ||| GPIO_PIN_11).testBit i = true →
      ((MX_GPIO_Init b s).pin GPIOC i).isPlainInput) ∧
    (∀ i, (GPIO_PIN_4 ||| b.DRDY_Pin).testBit i = true →
      ((MX_GPIO_Init b s).pin GPIOE i).isPlainInput) ∧
    (∀ i, GPIO_PIN_2.testBit i = true → ((MX_GPIO_Init b s).pin GPIOB i).isPlainInput) ∧
    (∀ i, (GPIO_PIN_13 ||| GPIO_PIN_12 ||| GPIO_PIN_4).testBit i = true →
      ((MX_GPIO_Init b s).pin GPIOD i).isPlainInput) ∧
    (∀ i, (b.TSC_G4_IO1_Pin ||| b.TSC_G4_IO2_Pin).testBit i = true →
      ((MX_GPIO_Init b s).pin GPIOC i).isAltFn GPIO_AF9_TSC) ∧
    (∀ i, (b.TSC_G6_IO1_Pin ||| b.TSC_G6_IO2_Pin).testBit i = true →
      ((MX_GPIO_Init b s).pin GPIOD i).isAltFn GPIO_AF9_TSC) ∧
    (∀ i, (b.SAI1_CK2_Pin ||| b.SAI1_D2_Pin).testBit i = true →
      ((MX_GPIO_Init b s).pin GPIOA i).isAltFn GPIO_AF3_SAI1) ∧
    (∀ i, (b.CS_DISP_Pin ||| b.GPIO_SELECT2_Pin).testBit i = true →
      ((MX_GPIO_Init b s).pin GPIOH i).isOutputPP) ∧
    (∀ i, (b.D_C_DISP_Pin ||| b.RST_DISP_Pin).testBit i = true →
      ((MX_GPIO_Init b s).pin GPIOC i).isOutputPP) ∧
    (∀ i, (GPIO_PIN_8 ||| b.SOLENOID_Pin).testBit i = true →
      ((MX_GPIO_Init b s).pin GPIOD i).isOutputPP) ∧
    (∀ i, b.GPIO_SELECT1_Pin.testBit i = true →
      ((MX_GPIO_Init b s).pin b.GPIO_SELECT1_GPIO_Port i).isOutputPP) ∧
    (∀ i, (b.INT1_Pin ||| b.INT2_Pin).testBit i = true →
      ((MX_GPIO_Init b s).pin GPIOD i).isRisingIrq) ∧
    (∀ i, GPIO_PIN_3.testBit i = true → ((MX_GPIO_Init b s).pin GPIOE i).isRisingIrq) := by
  have key := final_words b h s
  rw [trace_eq] at key
  refine ⟨?_, ?_, ?_, ?_, ?_, ?_, ?_, ?_, ?_, ?_, ?_, ?_, ?_⟩
  · intro i hi
    have hk := key GPIOC
      ⟨GPIO_PIN_2 ||| GPIO_PIN_10 ||| GPIO_PIN_11, GPIO_MODE_INPUT, GPIO_NOPULL, 0, 0⟩
      i (by simp) hi
    exact ⟨hk.1, hk.2.1⟩
  · intro i hi
    have hk := key GPIOE
      ⟨GPIO_PIN_4 ||| b.DRDY_Pin, GPIO_MODE_INPUT, GPIO_NOPULL, GPIO_SPEED_FREQ_LOW, GPIO_AF9_TSC⟩
      i (by simp) hi
    exact ⟨hk.1, hk.2.1⟩
  · intro i hi
    have hk := key GPIOB
      ⟨GPIO_PIN_2, GPIO_MODE_INPUT, GPIO_NOPULL, GPIO_SPEED_FREQ_LOW, GPIO_AF9_TSC⟩
      i (by simp) hi
    exact ⟨hk.1, hk.2.1⟩
  · intro i hi
    have hk := key GPIOD
      ⟨GPIO_PIN_13 ||| GPIO_PIN_12 ||| GPIO_PIN_4, GPIO_MODE_INPUT, GPIO_NOPULL, GPIO_SPEED_FREQ_LOW, GPIO_AF3_SAI1⟩
      i (by simp) hi
    exact ⟨hk.1, hk.2.1⟩
  · intro i hi
    have hk := key GPIOC
      ⟨b.TSC_G4_IO1_Pin ||| b.TSC_G4_IO2_Pin, GPIO_MODE_AF_PP, GPIO_NOPULL, GPIO_SPEED_FREQ_LOW, GPIO_AF9_TSC⟩
      i (by simp) hi
    exact hk
  · intro i hi
    have hk := key GPIOD
      ⟨b.TSC_G6_IO1_Pin ||| b.TSC_G6_IO2_Pin, GPIO_MODE_AF_PP, GPIO_NOPULL, GPIO_SPEED_FREQ_LOW, GPIO_AF9_TSC⟩
      i (by simp) hi
    exact hk
  · intro i hi
    have hk := key GPIOA
      ⟨b.SAI1_CK2_Pin ||| b.SAI1_D2_Pin, GPIO_MODE_AF_PP, GPIO_NOPULL, GPIO_SPEED_FREQ_LOW, GPIO_AF3_SAI1⟩
      i (by simp) hi
    exact hk
  · intro i hi
    have hk := key GPIOH
      ⟨b.CS_DISP_Pin ||| b.GPIO_SELECT2_Pin, GPIO_MODE_OUTPUT_PP, GPIO_NOPULL, GPIO_SPEED_FREQ_LOW, GPIO_AF3_SAI1⟩
      i (by simp) hi
    exact ⟨hk.1, hk.2.1, hk.2.2.1⟩
  · intro i hi
    have hk := key GPIOC
      ⟨b.D_C_DISP_Pin ||| b.RST_DISP_Pin, GPIO_MODE_OUTPUT_PP, GPIO_NOPULL, GPIO_SPEED_FREQ_LOW, GPIO_AF3_SAI1⟩
      i (by simp) hi
    exact ⟨hk.1, hk.2.1, hk.2.2.1⟩
  · intro i hi
    have hk := key GPIOD
      ⟨GPIO_PIN_8 ||| b.SOLENOID_Pin, GPIO_MODE_OUTPUT_PP, GPIO_NOPULL, GPIO_SPEED_FREQ_LOW, GPIO_AF3_SAI1⟩
      i (by simp) hi
    exact ⟨hk.1, hk.2.1, hk.2.2.1⟩
  · intro i hi
    have hk := key b.GPIO_SELECT1_GPIO_Port
      ⟨b.GPIO_SELECT1_Pin, GPIO_MODE_OUTPUT_PP, GPIO_NOPULL, GPIO_SPEED_FREQ_LOW, GPIO_AF9_TSC⟩
      i (by simp) hi
    exact ⟨hk.1, hk.2.1, hk.2.2.1⟩
  · intro i hi
    have hk := key GPIOD
      ⟨b.INT1_Pin ||| b.INT2_Pin, GPIO_MODE_IT_RISING, GPIO_NOPULL, GPIO_SPEED_FREQ_LOW, GPIO_AF3_SAI1⟩
      i (by simp) hi
    exact ⟨hk.1, hk.2.1⟩
  · intro i hi
    have hk := key GPIOE
      ⟨GPIO_PIN_3, GPIO_MODE_IT_RISING, GPIO_NOPULL, GPIO_SPEED_FREQ_LOW, GPIO_AF3_SAI1⟩
      i (by simp) hi
    exact ⟨hk.1, hk.2.1⟩

/-- Witness for C1 on the sample pin assignment, from the reset state: PH0 is a push-pull
output, PC6 is alternate function AF9_TSC, PE3 a rising-edge interrupt input and PB2 a plain
input. -/
theorem MX_GPIO_Init_group_configuration_witness :
    PinsDistinct sampleBoard ∧
    ((MX_GPIO_Init sampleBoard resetRegs).pin GPIOH 0).isOutputPP ∧
    ((MX_GPIO_Init sampleBoard resetRegs).pin GPIOC 6).isAltFn GPIO_AF9_TSC ∧
    ((MX_GPIO_Init sampleBoard resetRegs).pin GPIOE 3).isRisingIrq ∧
    ((MX_GPIO_Init sampleBoard resetRegs).pin GPIOB 2).isPlainInput :=
  have h : PinsDistinct sampleBoard := by
    unfold PinsDistinct configCalls
    rw [trace_eq]
    decide
  ⟨h,
   (MX_GPIO_Init_group_configuration sampleBoard h resetRegs).2.2.2.2.2.2.2.1 0 (by decide),
   (MX_GPIO_Init_group_configuration sampleBoard h resetRegs).2.2.2.2.1 6 (by decide),
   (MX_GPIO_Init_group_configuration sampleBoard h resetRegs).2.2.2.2.2.2.2.2.2.2.2.2 3
     (by decide),
   (MX_GPIO_Init_group_configuration sampleBoard h resetRegs).2.2.1 2 (by decide)⟩

theorem trace_length (b : Board) : (MX_GPIO_Init_trace b).length = 23 := by
  rw [trace_eq]; rfl

theorem trace_index_lt (b : Board) (j : Nat) (o : Op)
    (h : (MX_GPIO_Init_trace b)[j]? = some o) : j < 23 := by
  have := (List.getElem?_eq_some.mp h).1
  rwa [trace_length] at this

/-- Every level write of the routine writes logic-low. -/
theorem trace_write_level (b : Board) (p : GPIO_Port) (m v : Nat)
    (h : Op.write p m v ∈ MX_GPIO_Init_trace b) : v = GPIO_PIN_RESET := by
  rw [trace_eq] at h
  simp only [List.mem_cons, Op.write.injEq, List.mem_singleton, reduceCtorEq, false_or,
    List.mem_nil_iff, or_false] at h
  rcases h with h | h | h | h <;> exact h.2.2

/-- C2. In the sequence of register operations of `MX_GPIO_Init`, for every configuration
call that switches pins to push-pull output mode and every pin of its mask, a write of
logic-low covering that pin on that port occurs strictly earlier, and every write covering
the pin between the two is a write of logic-low (there is no write of logic-high). -/
theorem MX_GPIO_Init_level_before_output (b : Board) (j : Nat) (p : GPIO_Port)
    (c : GPIO_InitTypeDef) (pin : Nat)
    (hj : (MX_GPIO_Init_trace b)[j]? = some (Op.init p c))
    (hmode : c.Mode = GPIO_MODE_OUTPUT_PP) (hpin : c.Pin.testBit pin = true) :
    ∃ k m, k < j ∧ (MX_GPIO_Init_trace b)[k]? = some (Op.write p m GPIO_PIN_RESET) ∧
      m.testBit pin = true ∧
      ∀ k' m' v, k < k' → k' < j → (MX_GPIO_Init_trace b)[k']? = some (Op.write p m' v) →
        m'.testBit pin = true → v = GPIO_PIN_RESET := by
  have hall : ∀ k' m' v, (MX_GPIO_Init_trace b)[k']? = some (Op.write p m' v) →
      v = GPIO_PIN_RESET := fun k' m' v h =>
    trace_write_level b p m' v (List.getElem?_mem h)
  have hlt := trace_index_lt b j _ hj
  have ht := trace_eq b
  rw [ht] at hj
  interval_cases j <;>
    simp only [List.getElem?_cons_succ, List.getElem?_cons_zero, Option.some.injEq,
      reduceCtorEq, Op.init.injEq] at hj <;>
    obtain ⟨rfl, rfl⟩ := hj <;>
    first
    | (exfalso; revert hmode
       simp [GPIO_MODE_INPUT, GPIO_MODE_AF_PP, GPIO_MODE_IT_RISING, GPIO_MODE_OUTPUT_PP]
       done)
    | exact ⟨6, _, by norm_num, by rw [ht]; rfl, hpin, fun k' m' v _ _ h _ => hall k' m' v h⟩
    | exact ⟨7, _, by norm_num, by rw [ht]; rfl, hpin, fun k' m' v _ _ h _ => hall k' m' v h⟩
    | exact ⟨8, _, by norm_num, by rw [ht]; rfl, hpin, fun k' m' v _ _ h _ => hall k' m' v h⟩
    | exact ⟨9, _, by norm_num, by rw [ht]; rfl, hpin, fun k' m' v _ _ h _ => hall k' m' v h⟩

/-- Witness for C2 on the sample pin assignment: operation 15 configures CS_DISP and
GPIO_SELECT2 on port H as push-pull outputs, and pin 0 of that mask was written low before. -/
theorem MX_GPIO_Init_level_before_output_witness :
    (MX_GPIO_Init_trace sampleBoard)[15]? =
        some (Op.init GPIOH ⟨GPIO_PIN 0 ||| GPIO_PIN 1, GPIO_MODE_OUTPUT_PP, GPIO_NOPULL,
          GPIO_SPEED_FREQ_LOW, GPIO_AF3_SAI1⟩) ∧
    (∃ k m, k < 15 ∧
      (MX_GPIO_Init_trace sampleBoard)[k]? = some (Op.write GPIOH m GPIO_PIN_RESET) ∧
      m.testBit 0 = true ∧
      ∀ k' m' v, k < k' → k' < 15 →
        (MX_GPIO_Init_trace sampleBoard)[k']? = some (Op.write GPIOH m' v) →
        m'.testBit 0 = true → v = GPIO_PIN_RESET) :=
  have hj : (MX_GPIO_Init_trace sampleBoard)[15]? =
      some (Op.init GPIOH ⟨GPIO_PIN 0 ||| GPIO_PIN 1, GPIO_MODE_OUTPUT_PP, GPIO_NOPULL,
        GPIO_SPEED_FREQ_LOW, GPIO_AF3_SAI1⟩) := by
    rw [trace_eq]; rfl
  ⟨hj, MX_GPIO_Init_level_before_output sampleBoard 15 GPIOH _ 0 hj rfl (by decide)⟩

theorem clash_symm (x y : Op) : Op.clash x y = Op.clash y x := by
  cases x <;> cases y <;> simp [Op.clash, eq_comm, Nat.land_comm]

theorem writeTargets_eq (b : Board) :
    (MX_GPIO_Init_trace b).filterMap Op.writeTarget? =
      [(GPIOH, b.CS_DISP_Pin ||| b.GPIO_SELECT2_Pin), (GPIOC, b.D_C_DISP_Pin ||| b.RST_DISP_Pin),
       (GPIOD, GPIO_PIN_8 ||| b.SOLENOID_Pin),
       (b.GPIO_SELECT1_GPIO_Port, b.GPIO_SELECT1_Pin)] := by
  rw [trace_eq]; rfl

theorem outputTargets_eq (b : Board) :
    (MX_GPIO_Init_trace b).filterMap Op.outputTarget? =
      [(GPIOH, b.CS_DISP_Pin ||| b.GPIO_SELECT2_Pin), (GPIOC, b.D_C_DISP_Pin ||| b.RST_DISP_Pin),
       (GPIOD, GPIO_PIN_8 ||| b.SOLENOID_Pin),
       (b.GPIO_SELECT1_GPIO_Port, b.GPIO_SELECT1_Pin)] := by
  rw [trace_eq]; rfl

/-- Every level write of the routine has a push-pull output group with its port and mask. -/
theorem write_has_output_group (b : Board) (p : GPIO_Port) (m v : Nat)
    (h : Op.write p m v ∈ MX_GPIO_Init_trace b) :
    ∃ c, Op.init p c ∈ MX_GPIO_Init_trace b ∧ c.Mode = GPIO_MODE_OUTPUT_PP ∧ c.Pin = m := by
  have h1 : (p, m) ∈ (MX_GPIO_Init_trace b).filterMap Op.writeTarget? :=
    List.mem_filterMap.mpr ⟨_, h, rfl⟩
  rw [writeTargets_eq, ← outputTargets_eq] at h1
  obtain ⟨o, ho, hoe⟩ := List.mem_filterMap.mp h1
  cases o with
  | clk q => simp [Op.outputTarget?] at hoe
  | write q m' v' => simp [Op.outputTarget?] at hoe
  | init q c =>
    simp only [Op.outputTarget?] at hoe
    split_ifs at hoe with hc
    simp only [Option.some.injEq, Prod.mk.injEq] at hoe
    obtain ⟨rfl, rfl⟩ := hoe
    exact ⟨c, ho, hc, rfl⟩

/-- Every push-pull output group of the routine has a level write with its port and mask. -/
theorem output_group_has_write (b : Board) (p : GPIO_Port) (c : GPIO_InitTypeDef)
    (h : Op.init p c ∈ MX_GPIO_Init_trace b) (hc : c.Mode = GPIO_MODE_OUTPUT_PP) :
    ∃ v, Op.write p c.Pin v ∈ MX_GPIO_Init_trace b := by
  have h1 : (p, c.Pin) ∈ (MX_GPIO_Init_trace b).filterMap Op.outputTarget? :=
    List.mem_filterMap.mpr ⟨_, h, by simp [Op.outputTarget?, hc]⟩
  rw [outputTargets_eq, ← writeTargets_eq] at h1
  obtain ⟨o, ho, hoe⟩ := List.mem_filterMap.mp h1
  cases o with
  | clk q => simp [Op.writeTarget?] at hoe
  | init q c' => simp [Op.writeTarget?] at hoe
  | write q m' v' =>
    simp only [Op.writeTarget?, Option.some.injEq, Prod.mk.injEq] at hoe
    obtain ⟨rfl, rfl⟩ := hoe
    exact ⟨v', ho⟩

/-- C9. The pins `MX_GPIO_Init` drives are the pins it makes outputs: the ports and masks of
the level writes are, in order, those of the groups configured as push-pull output (CS_DISP,
GPIO_SELECT2 on H; D_C_DISP, RST_DISP on C; PD8, SOLENOID on D; GPIO_SELECT1 on its port:
seven pin names), so per port a pin is covered by a level write exactly when it is covered by
a push-pull output group; every level written is logic-low; and, under a pin assignment that
gives no pin to two groups, no pin of a group configured as input, interrupt or alternate
function is covered by a level write. -/
theorem MX_GPIO_Init_writes_are_outputs (b : Board) :
    (MX_GPIO_Init_trace b).filterMap Op.writeTarget? =
      [(GPIOH, b.CS_DISP_Pin ||| b.GPIO_SELECT2_Pin), (GPIOC, b.D_C_DISP_Pin ||| b.RST_DISP_Pin),
       (GPIOD, GPIO_PIN_8 ||| b.SOLENOID_Pin),
       (b.GPIO_SELECT1_GPIO_Port, b.GPIO_SELECT1_Pin)] ∧
    (MX_GPIO_Init_trace b).filterMap Op.outputTarget? =
      (MX_GPIO_Init_trace b).filterMap Op.writeTarget? ∧
    (∀ p i, (∃ m v, Op.write p m v ∈ MX_GPIO_Init_trace b ∧ m.testBit i = true) ↔
      (∃ c, Op.init p c ∈ MX_GPIO_Init_trace b ∧ c.Mode = GPIO_MODE_OUTPUT_PP ∧
        c.Pin.testBit i = true)) ∧
    (∀ p m v, Op.write p m v ∈ MX_GPIO_Init_trace b → v = GPIO_PIN_RESET) ∧
    (PinsDistinct b → ∀ p c i, Op.init p c ∈ MX_GPIO_Init_trace b →
      (c.Mode = GPIO_MODE_INPUT ∨ c.Mode = GPIO_MODE_IT_RISING ∨ c.Mode = GPIO_MODE_AF_PP) →
      c.Pin.testBit i = true →
      ∀ m v, Op.write p m v ∈ MX_GPIO_Init_trace b → m.testBit i = false) := by
  refine ⟨writeTargets_eq b, by rw [outputTargets_eq, writeTargets_eq], ?_,
    trace_write_level b, ?_⟩
  · intro p i
    constructor
    · rintro ⟨m, v, hm, hi⟩
      obtain ⟨c, hc, hmode, rfl⟩ := write_has_output_group b p m v hm
      exact ⟨c, hc, hmode, hi⟩
    · rintro ⟨c, hc, hmode, hi⟩
      obtain ⟨v, hv⟩ := output_group_has_write b p c hc hmode
      exact ⟨c.Pin, v, hv, hi⟩
  · intro hd p c i hc hmode hi m v hm
    obtain ⟨c', hc', hmode', rfl⟩ := write_has_output_group b p m v hm
    cases hbit : c'.Pin.testBit i with
    | false => rfl
    | true =>
      exfalso
      have hne : Op.init p c ≠ Op.init p c' := by
        intro he
        simp only [Op.init.injEq, true_and] at he
        rw [he, hmode'] at hmode
        simp [GPIO_MODE_INPUT, GPIO_MODE_IT_RISING, GPIO_MODE_AF_PP, GPIO_MODE_OUTPUT_PP]
          at hmode
      have hsym : Symmetric (fun x y => Op.clash x y = false) := by
        intro x y hxy
        rw [clash_symm]; exact hxy
      have m1 : Op.init p c ∈ configCalls b := by
        simp [configCalls, List.mem_filter, hc, Op.isInit]
      have m2 : Op.init p c' ∈ configCalls b := by
        simp [configCalls, List.mem_filter, hc', Op.isInit]
      have hcl := List.Pairwise.forall hsym hd m1 m2 hne
      simp only [Op.clash, Bool.and_eq_false_imp, decide_eq_true_eq, decide_eq_false_iff_not,
        not_not, true_implies] at hcl
      exact no_common_bit _ _ i hcl hi hbit

/-- Witness for C9 on the sample pin assignment: PC6, an alternate-function pin, is not in
the mask of the level write on port C. -/
theorem MX_GPIO_Init_writes_are_outputs_witness :
    PinsDistinct sampleBoard ∧ (GPIO_PIN 8 ||| GPIO_PIN 9).testBit 6 = false :=
  have h : PinsDistinct sampleBoard := by
    unfold PinsDistinct configCalls
    rw [trace_eq]
    decide
  ⟨h, (MX_GPIO_Init_writes_are_outputs sampleBoard).2.2.2.2 h GPIOC
    ⟨GPIO_PIN 6 ||| GPIO_PIN 7, GPIO_MODE_AF_PP, GPIO_NOPULL, GPIO_SPEED_FREQ_LOW, GPIO_AF9_TSC⟩
    6 (by rw [trace_eq]; decide) (Or.inr (Or.inr rfl)) (by decide)
    (GPIO_PIN 8 ||| GPIO_PIN 9) GPIO_PIN_RESET (by rw [trace_eq]; decide)⟩

/-- C10. The configuration record of `MX_GPIO_Init` is zero-initialised once and reused
without being cleared: the thirteen calls receive the records listed here, whose
alternate-function field is at every call the selector of the most recent alternate-function
group so far (zero before the first one) — AF9_TSC for PE4/DRDY and PB2, AF3_SAI1 for
CS_DISP/GPIO_SELECT2, PD13/PD12/PD4, INT1/INT2, D_C_DISP/RST_DISP, PE3 and PD8/SOLENOID,
AF9_TSC for the final GPIO_SELECT1 — and whose speed field is the low-speed value, zero, at
every call. -/
theorem MX_GPIO_Init_record_reuse (b : Board) :
    configCalls b =
      [ Op.init GPIOC ⟨GPIO_PIN_2 ||| GPIO_PIN_10 ||| GPIO_PIN_11, GPIO_MODE_INPUT, GPIO_NOPULL,
          0, 0⟩,
        Op.init GPIOC ⟨b.TSC_G4_IO1_Pin ||| b.TSC_G4_IO2_Pin, GPIO_MODE_AF_PP, GPIO_NOPULL,
          GPIO_SPEED_FREQ_LOW, GPIO_AF9_TSC⟩,
        Op.init GPIOE ⟨GPIO_PIN_4 ||| b.DRDY_Pin, GPIO_MODE_INPUT, GPIO_NOPULL,
          GPIO_SPEED_FREQ_LOW, GPIO_AF9_TSC⟩,
        Op.init GPIOB ⟨GPIO_PIN_2, GPIO_MODE_INPUT, GPIO_NOPULL, GPIO_SPEED_FREQ_LOW,
          GPIO_AF9_TSC⟩,
        Op.init GPIOA ⟨b.SAI1_CK2_Pin ||| b.SAI1_D2_Pin, GPIO_MODE_AF_PP, GPIO_NOPULL,
          GPIO_SPEED_FREQ_LOW, GPIO_AF3_SAI1⟩,
        Op.init GPIOH ⟨b.CS_DISP_Pin ||| b.GPIO_SELECT2_Pin, GPIO_MODE_OUTPUT_PP, GPIO_NOPULL,
          GPIO_SPEED_FREQ_LOW, GPIO_AF3_SAI1⟩,
        Op.init GPIOD ⟨GPIO_PIN_13 ||| GPIO_PIN_12 ||| GPIO_PIN_4, GPIO_MODE_INPUT, GPIO_NOPULL,
          GPIO_SPEED_FREQ_LOW, GPIO_AF3_SAI1⟩,
        Op.init GPIOD ⟨b.INT1_Pin ||| b.INT2_Pin, GPIO_MODE_IT_RISING, GPIO_NOPULL,
          GPIO_SPEED_FREQ_LOW, GPIO_AF3_SAI1⟩,
        Op.init GPIOC ⟨b.D_C_DISP_Pin ||| b.RST_DISP_Pin, GPIO_MODE_OUTPUT_PP, GPIO_NOPULL,
          GPIO_SPEED_FREQ_LOW, GPIO_AF3_SAI1⟩,
        Op.init GPIOE ⟨GPIO_PIN_3, GPIO_MODE_IT_RISING, GPIO_NOPULL, GPIO_SPEED_FREQ_LOW,
          GPIO_AF3_SAI1⟩,
        Op.init GPIOD ⟨GPIO_PIN_8 ||| b.SOLENOID_Pin, GPIO_MODE_OUTPUT_PP, GPIO_NOPULL,
          GPIO_SPEED_FREQ_LOW, GPIO_AF3_SAI1⟩,
        Op.init GPIOD ⟨b.TSC_G6_IO1_Pin ||| b.TSC_G6_IO2_Pin, GPIO_MODE_AF_PP, GPIO_NOPULL,
          GPIO_SPEED_FREQ_LOW, GPIO_AF9_TSC⟩,
        Op.init b.GPIO_SELECT1_GPIO_Port ⟨b.GPIO_SELECT1_Pin, GPIO_MODE_OUTPUT_PP, GPIO_NOPULL,
          GPIO_SPEED_FREQ_LOW, GPIO_AF9_TSC⟩ ] ∧
    (callRecords b).map (fun c => c.Alternate) =
      [0, GPIO_AF9_TSC, GPIO_AF9_TSC, GPIO_AF9_TSC, GPIO_AF3_SAI1, GPIO_AF3_SAI1, GPIO_AF3_SAI1,
       GPIO_AF3_SAI1, GPIO_AF3_SAI1, GPIO_AF3_SAI1, GPIO_AF3_SAI1, GPIO_AF9_TSC, GPIO_AF9_TSC] ∧
    (callRecords b).map (fun c => c.Alternate) =
      (List.range 13).map (fun k => staleAlternate ((callRecords b).take (k + 1))) ∧
    (callRecords b).map (fun c => c.Speed) = List.replicate 13 GPIO_SPEED_FREQ_LOW ∧
    GPIO_SPEED_FREQ_LOW = 0 := by
  refine ⟨?_, ?_, ?_, ?_, rfl⟩
  · rw [configCalls, trace_eq]; rfl
  · rw [callRecords, trace_eq]; rfl
  · rw [callRecords, trace_eq]; rfl
  · rw [callRecords, trace_eq]; rfl

theorem testBit_GPIO_PIN (j i : Nat) : (GPIO_PIN j).testBit i = decide (j = i) := by
  rw [GPIO_PIN, Nat.one_shiftLeft, Nat.testBit_two_pow]

theorem perPin_cons (j : Nat) (l : List Nat) (p : GPIO_Port) (c : GPIO_InitTypeDef) (s : Regs) :
    HAL_GPIO_Init_perPin (j :: l) p c s
      = HAL_GPIO_Init_perPin l p c (HAL_GPIO_Init p { c with Pin := GPIO_PIN j } s) := rfl

theorem perPin_clock (l : List Nat) (p : GPIO_Port) (c : GPIO_InitTypeDef) (s : Regs) :
    (HAL_GPIO_Init_perPin l p c s).clock = s.clock := by
  induction l generalizing s with
  | nil => rfl
  | cons j l ih => rw [perPin_cons, ih]; rfl

theorem perPin_pin (l : List Nat) (p : GPIO_Port) (c : GPIO_InitTypeDef) (s : Regs)
    (q : GPIO_Port) (i : Nat) :
    (HAL_GPIO_Init_perPin l p c s).pin q i
      = if q = p ∧ i ∈ l then PinState.setCfg (some c) (s.pin q i) else s.pin q i := by
  induction l generalizing s with
  | nil => simp [HAL_GPIO_Init_perPin]
  | cons j l ih =>
    rw [perPin_cons, ih]
    simp only [HAL_GPIO_Init, testBit_GPIO_PIN, decide_eq_true_eq, List.mem_cons]
    by_cases hq : q = p
    · by_cases hl : i ∈ l
      · by_cases hj : j = i
        · simp [hq, hl, hj, PinState.setCfg]
        · simp [hq, hl, hj, PinState.setCfg]
      · by_cases hj : j = i
        · simp [hq, hl, hj, PinState.setCfg]
        · have hj' : ¬ i = j := fun h => hj h.symm
          simp [hq, hl, hj, hj']
    · simp [hq]

/-- One call per pin of the mask, in any order, is the grouped call. -/
theorem perPin_eq (l : List Nat) (p : GPIO_Port) (c : GPIO_InitTypeDef)
    (hl : ∀ i, i ∈ l ↔ c.Pin.testBit i = true) (s : Regs) :
    HAL_GPIO_Init_perPin l p c s = HAL_GPIO_Init p c s := by
  apply Regs.ext
  · rw [perPin_clock]; rfl
  · funext q i
    rw [perPin_pin]
    simp only [HAL_GPIO_Init, hl i, PinState.setCfg]

theorem replayOn_congr {σ : Type} (hw₁ hw₂ : GpioHw σ) (l : List Op)
    (h : ∀ o ∈ l, interp hw₁ o = interp hw₂ o) (s : σ) :
    replayOn hw₁ l s = replayOn hw₂ l s := by
  induction l generalizing s with
  | nil => rfl
  | cons o l ih =>
    have ho := h o (List.mem_cons_self _ _)
    simp only [replayOn, List.foldl_cons] at ih ⊢
    rw [ho]
    exact ih (fun x hx => h x (List.mem_cons_of_mem _ hx)) _

theorem mem_pinsOfMask (m i : Nat) : i ∈ pinsOfMask m ↔ m.testBit i = true := by
  simp only [pinsOfMask, List.mem_reverse, List.mem_filter, List.mem_range]
  constructor
  · exact fun h => h.2
  · intro h
    have h1 := Nat.testBit_implies_ge h
    have h2 := Nat.lt_two_pow i
    exact ⟨by omega, h⟩

/-- C7. Grouping is not semantically relevant: for every group of `MX_GPIO_Init`, replacing
the configuration call on the group's mask by one configuration call per pin of the mask
(same port, mode, pull, speed and alternate function, in any order) yields the same register
state as the grouped call, and the one-pin-at-a-time variant of the whole routine ends in the
same state as `MX_GPIO_Init`. -/
theorem MX_GPIO_Init_grouping_irrelevant (b : Board)
    (order : GPIO_Port → GPIO_InitTypeDef → List Nat)
    (horder : ∀ p c, Op.init p c ∈ MX_GPIO_Init_trace b →
      ∀ i, i ∈ order p c ↔ c.Pin.testBit i = true) (s : Regs) :
    (∀ p c, Op.init p c ∈ MX_GPIO_Init_trace b →
      ∀ s', HAL_GPIO_Init_perPin (order p c) p c s' = HAL_GPIO_Init p c s') ∧
    MX_GPIO_Init_perPin order b s = MX_GPIO_Init b s := by
  have hcall : ∀ p c, Op.init p c ∈ MX_GPIO_Init_trace b →
      ∀ s', HAL_GPIO_Init_perPin (order p c) p c s' = HAL_GPIO_Init p c s' :=
    fun p c hc s' => perPin_eq _ p c (horder p c hc) s'
  refine ⟨hcall, ?_⟩
  rw [MX_GPIO_Init_perPin, MX_GPIO_Init, on_eq_replayOn, on_eq_replayOn]
  apply replayOn_congr
  intro o ho
  cases o with
  | clk p => rfl
  | write p m v => rfl
  | init p c =>
    funext s'
    exact hcall p c ho s'

/-- Witness for C7 on the sample pin assignment, one call per pin from the highest pin of
each mask down, from the reset state. -/
theorem MX_GPIO_Init_grouping_irrelevant_witness :
    (∀ p c, Op.init p c ∈ MX_GPIO_Init_trace sampleBoard →
      ∀ i, i ∈ pinsOfMask c.Pin ↔ c.Pin.testBit i = true) ∧
    MX_GPIO_Init_perPin (fun _ c => pinsOfMask c.Pin) sampleBoard resetRegs
      = MX_GPIO_Init sampleBoard resetRegs :=
  have h : ∀ p c, Op.init p c ∈ MX_GPIO_Init_trace sampleBoard →
      ∀ i, i ∈ pinsOfMask c.Pin ↔ c.Pin.testBit i = true :=
    fun _ c _ i => mem_pinsOfMask c.Pin i
  ⟨h, (MX_GPIO_Init_grouping_irrelevant sampleBoard (fun _ c => pinsOfMask c.Pin) h
    resetRegs).2⟩

theorem HAL_GPIO_Init_comm (p q : GPIO_Port) (c d : GPIO_InitTypeDef) (s : Regs) (hpq : p ≠ q) :
    HAL_GPIO_Init p c (HAL_GPIO_Init q d s) = HAL_GPIO_Init q d (HAL_GPIO_Init p c s) := by
  apply Regs.ext
  · rfl
  · funext r i
    simp only [HAL_GPIO_Init]
    by_cases h1 : r = p
    · have h2 : ¬ r = q := fun h => hpq (h1.symm.trans h)
      simp [h1, h2, hpq]
    · simp [h1]

theorem lastCfg_filter_port (l : List Op) (p : GPIO_Port) (i : Nat) :
    lastCfg (l.filter (fun o => decide (o.port = p))) p i = lastCfg l p i := by
  induction l with
  | nil => rfl
  | cons o l ih =>
    by_cases ho : o.port = p
    · simp only [List.filter_cons, ho, decide_True, if_true, lastCfg, ih]
    · have hn : o.cfgAt p i = none := by
        cases o <;> simp only [Op.cfgAt, Op.port] at ho ⊢
        rw [if_neg]
        exact fun h => ho h.1.symm
      rw [List.filter_cons, if_neg (by simpa using ho), ih, lastCfg, hn]
      cases lastCfg l p i <;> rfl

theorem lastLvl_filter_port (l : List Op) (p : GPIO_Port) (i : Nat) :
    lastLvl (l.filter (fun o => decide (o.port = p))) p i = lastLvl l p i := by
  induction l with
  | nil => rfl
  | cons o l ih =>
    by_cases ho : o.port = p
    · simp only [List.filter_cons, ho, decide_True, if_true, lastLvl, ih]
    · have hn : o.lvlAt p i = none := by
        cases o <;> simp only [Op.lvlAt, Op.port] at ho ⊢
        rw [if_neg]
        exact fun h => ho h.1.symm
      rw [List.filter_cons, if_neg (by simpa using ho), ih, lastLvl, hn]
      cases lastLvl l p i <;> rfl

theorem clkOn_filter_port (l : List Op) (p : GPIO_Port) :
    clkOn (l.filter (fun o => decide (o.port = p))) p = clkOn l p := by
  induction l with
  | nil => rfl
  | cons o l ih =>
    have hcons : ∀ (x : Op) (t : List Op), clkOn (x :: t) p = (x.clkAt p || clkOn t p) :=
      fun _ _ => rfl
    by_cases ho : o.port = p
    · rw [List.filter_cons, if_pos (by simpa using ho), hcons, hcons, ih]
    · have hn : o.clkAt p = false := by
        cases o <;> simp only [Op.clkAt, Op.port] at ho ⊢
        exact decide_eq_false (fun h => ho h.symm)
      rw [List.filter_cons, if_neg (by simpa using ho), ih, hcons, hn, Bool.false_or]

/-- Two lists of operations with the same operations, in the same order, on every single
port have the same effect on the register file. -/
theorem replay_eq_of_filter (l₁ l₂ : List Op)
    (h : ∀ p, l₁.filter (fun o => decide (o.port = p)) = l₂.filter (fun o => decide (o.port = p)))
    (s : Regs) : replay l₁ s = replay l₂ s := by
  apply Regs.ext
  · funext p
    rw [replay_clock, replay_clock, ← clkOn_filter_port l₁, h p, clkOn_filter_port]
  · funext p i
    rw [replay_pin, replay_pin, ← lastCfg_filter_port l₁, ← lastLvl_filter_port l₁, h p,
      lastCfg_filter_port, lastLvl_filter_port]

theorem trace_split (b : Board) : MX_GPIO_Init_trace b = clockAndLevelOps b ++ configCalls b := by
  rw [clockAndLevelOps, configCalls, trace_eq]; rfl

/-- C8. Configuration calls on different ports commute from any register state, and any
reordering of the thirteen configuration calls of `MX_GPIO_Init` that stays after the clock
enables and level writes and keeps, for every port, the calls on that port in their relative
order ends in the same final register state as `MX_GPIO_Init`. -/
theorem MX_GPIO_Init_reorder (b : Board) :
    (∀ p q c d s, p ≠ q →
      HAL_GPIO_Init p c (HAL_GPIO_Init q d s) = HAL_GPIO_Init q d (HAL_GPIO_Init p c s)) ∧
    (∀ l s,
      (∀ p, l.filter (fun o => decide (o.port = p))
          = (configCalls b).filter (fun o => decide (o.port = p))) →
      replay (clockAndLevelOps b ++ l) s = MX_GPIO_Init b s) := by
  refine ⟨fun p q c d s hpq => HAL_GPIO_Init_comm p q c d s hpq, ?_⟩
  intro l s hl
  rw [MX_GPIO_Init_eq_replay, trace_split, replay_append, replay_append]
  exact replay_eq_of_filter _ _ hl _

/-- Witness for C8 on the sample pin assignment: the four groups of port D moved in front of
all other groups, from the reset state. -/
theorem MX_GPIO_Init_reorder_witness :
    (∀ p, (portDFirst sampleBoard).filter (fun o => decide (o.port = p))
        = (configCalls sampleBoard).filter (fun o => decide (o.port = p))) ∧
    portDFirst sampleBoard ≠ configCalls sampleBoard ∧
    replay (clockAndLevelOps sampleBoard ++ portDFirst sampleBoard) resetRegs
      = MX_GPIO_Init sampleBoard resetRegs :=
  have h : ∀ p, (portDFirst sampleBoard).filter (fun o => decide (o.port = p))
      = (configCalls sampleBoard).filter (fun o => decide (o.port = p)) := by
    intro p
    rw [portDFirst, configCalls, trace_eq]
    cases p <;> decide
  ⟨h, by rw [portDFirst, configCalls, trace_eq]; decide,
    (MX_GPIO_Init_reorder sampleBoard).2 _ resetRegs h⟩

end DronSTM
